import Mathlib

set_option maxHeartbeats 1000000

/-!
Shallow embedding of the Chirpier JavaScript SDK client (`index.ts`,
`constants.ts`): the event and queue data model, the event and JWT
validators, the queue-lock section of `monitor`, the `flushQueue`
retry/requeue logic, and an interleaved small-step semantics of one
client instance on the JavaScript event loop.
-/

/-- Model of a JavaScript number: the SDK only inspects the dynamic type
tag of `value`, so finite values are carried as exact rationals and the
IEEE specials are explicit constructors; no floating-point arithmetic is
performed anywhere in the embedded code. -/
inductive JsNum where
  | finite (q : ℚ)
  | nan
  | posInf
  | negInf
deriving DecidableEq, Repr

/-- Model of a JavaScript value, as far as the SDK inspects values:
`typeof` tags, strings, numbers, and JSON structure. -/
inductive JsValue where
  | null
  | undef
  | boolean (b : Bool)
  | num (n : JsNum)
  | str (s : String)
  | arr (elems : List JsValue)
  | obj (fields : List (String × JsValue))

/-- The JavaScript `typeof` operator on modelled values; note that
`typeof null` and `typeof` of an array are both "object". -/
def jsTypeof : JsValue → String
  | .null => "object"
  | .undef => "undefined"
  | .boolean _ => "boolean"
  | .num _ => "number"
  | .str _ => "string"
  | .arr _ => "object"
  | .obj _ => "object"

/-- The WhiteSpace and LineTerminator characters removed by JavaScript
`String.prototype.trim` (ECMA-262). -/
def jsWhitespace (c : Char) : Bool :=
  [' ', '\t', '\n', '\r', '\x0b', '\x0c',
   '\u00a0', '\u1680', '\u2000', '\u2001', '\u2002', '\u2003', '\u2004',
   '\u2005', '\u2006', '\u2007', '\u2008', '\u2009', '\u200a',
   '\u2028', '\u2029', '\u202f', '\u205f', '\u3000', '\ufeff'].contains c

/-- JavaScript `String.prototype.trim`. -/
def jsTrim (s : String) : String :=
  String.mk (((s.data.dropWhile jsWhitespace).reverse.dropWhile jsWhitespace).reverse)

/-- One hexadecimal digit, the character class `[0-9a-fA-F]`. -/
def isHexDigit (c : Char) : Bool :=
  ('0' ≤ c && c ≤ '9') || ('a' ≤ c && c ≤ 'f') || ('A' ≤ c && c ≤ 'F')

/-- JavaScript `String.prototype.split` with a single-character separator,
on character lists: consecutive separators yield empty groups and the
empty string yields one empty group. -/
def splitChars (sep : Char) : List Char → List (List Char)
  | [] => [[]]
  | c :: rest =>
    match splitChars sep rest with
    | [] => [[]]
    | g :: gs => if c = sep then [] :: g :: gs else (c :: g) :: gs

/-- JavaScript `String.prototype.split` with a single-character separator. -/
def jsSplit (s : String) (sep : Char) : List String :=
  (splitChars sep s.data).map String.mk

/-- The canonical-UUID regular-expression test from `Chirpier.isValidEvent`
(`/^[0-9a-fA-F]{8}-[0-9a-fA-F]{4}-[0-9a-fA-F]{4}-[0-9a-fA-F]{4}-[0-9a-fA-F]{12}$/`):
anchored at both ends, the string must consist of five hyphen-separated
hexadecimal groups of lengths 8, 4, 4, 4 and 12. -/
def uuidTest (s : String) : Bool :=
  let groups := splitChars '-' s.data
  (groups.map List.length == [8, 4, 4, 4, 12]) &&
    groups.all (fun g => g.all isHexDigit)

/-- `ChirpierError`: the single SDK error kind; carries only its message. -/
structure ChirpierError where
  message : String
deriving DecidableEq, Repr

/-- The `Event` record submitted to `monitor`. The TypeScript interface
declares `group_id`, `stream_name` and `value`, but the validator
re-checks dynamic types at run time, so the fields are modelled as
arbitrary JavaScript values. -/
structure Event where
  group_id : JsValue
  stream_name : JsValue
  value : JsValue

/-- `QueuedEvent`: an event plus its enqueue timestamp and retry counter. -/
structure QueuedEvent where
  event : Event
  timestamp : Nat
  retryCount : Nat

/-- The `LogLevel` enumeration (None 0 < Error 1 < Info 2 < Debug 3). -/
inductive LogLevel where
  | none
  | error
  | info
  | debug
deriving DecidableEq, Repr

-- `constants.ts` of the queued-event evolution of the client (the
-- constants file that exports `MAX_QUEUE_SIZE`).
namespace Constants

/-- Default ingestion endpoint. -/
def DEFAULT_API_ENDPOINT : String := "https://events.chirpier.co/v1.0/events"

/-- Default maximum retries per event. -/
def DEFAULT_RETRIES : Nat := 15

/-- Default per-request timeout in milliseconds. -/
def DEFAULT_TIMEOUT : Nat := 5000

/-- Default batch size. -/
def DEFAULT_BATCH_SIZE : Nat := 250

/-- Default flush delay in milliseconds. -/
def DEFAULT_FLUSH_DELAY : Nat := 500

/-- Hard cap on buffered-but-unsent events. -/
def MAX_QUEUE_SIZE : Nat := 10000

end Constants

-- The divergent `src/constants.ts` evolution (eu-west endpoint, batch
-- size 350, queue cap 50000); recorded for reference, the queued-event
-- client resolves its configuration from `Constants` above.
namespace ConstantsEU

/-- Ingestion endpoint of the eu-west evolution. -/
def DEFAULT_API_ENDPOINT : String := "https://eu-west.chirpier.co/v1.0/events"

/-- Default maximum retries per event. -/
def DEFAULT_RETRIES : Nat := 15

/-- Default per-request timeout in milliseconds. -/
def DEFAULT_TIMEOUT : Nat := 5000

/-- Default batch size of the eu-west evolution. -/
def DEFAULT_BATCH_SIZE : Nat := 350

/-- Default flush delay in milliseconds. -/
def DEFAULT_FLUSH_DELAY : Nat := 500

/-- Queue cap of the eu-west evolution. -/
def MAX_QUEUE_SIZE : Nat := 50000

end ConstantsEU

/-- The resolved per-instance configuration fields of the `Chirpier`
class. -/
structure Config where
  apiEndpoint : String
  retries : Nat
  timeout : Nat
  batchSize : Nat
  flushDelay : Nat
  maxQueueSize : Nat
  logLevel : LogLevel
deriving DecidableEq, Repr

/-- The configuration captured by the `Chirpier` constructor of the
queued-event client: every field is taken from the default constants (the
constructor accepts only `key` and `logLevel` and hard-codes the rest);
the queue cap field records the module constant `MAX_QUEUE_SIZE` that
`monitor` reads directly. -/
def resolvedConfig (logLevel : LogLevel) : Config :=
  { apiEndpoint := Constants.DEFAULT_API_ENDPOINT
    retries := Constants.DEFAULT_RETRIES
    timeout := Constants.DEFAULT_TIMEOUT
    batchSize := Constants.DEFAULT_BATCH_SIZE
    flushDelay := Constants.DEFAULT_FLUSH_DELAY
    maxQueueSize := Constants.MAX_QUEUE_SIZE
    logLevel := logLevel }

namespace Chirpier

/-- `Chirpier.isValidEvent`: `typeof event.group_id === "string"`, the UUID
regular-expression test on it, a nonempty result after `trim`, the same
string-and-trim checks for `stream_name`, and
`typeof event.value === "number"`. -/
def isValidEvent (event : Event) : Bool :=
  (match event.group_id with
   | .str s => uuidTest s && decide (0 < (jsTrim s).length)
   | _ => false) &&
  (match event.stream_name with
   | .str s => decide (0 < (jsTrim s).length)
   | _ => false) &&
  (match event.value with
   | .num _ => true
   | _ => false)

/-- The mutable state of one client instance that the claims inspect: the
live queue, whether a flush timer is pending (`flushTimeoutId !== null`),
and the snapshot held by an in-flight send, if any. -/
structure ClientState where
  eventQueue : List QueuedEvent
  flushTimerPending : Bool
  sending : Option (List QueuedEvent)

/-- The queue-lock section of `Chirpier.monitor`: validate the event,
raise when the queue is at or above the maximum size (the thrown error
aborts before the push, so the state is returned unchanged), otherwise
push a wrapper carrying the current timestamp and retry count 0. Returns
the state after the call together with the raised error, if any. -/
def monitorEnqueue (cfg : Config) (s : ClientState) (event : Event) (now : Nat) :
    ClientState × Option ChirpierError :=
  if !(isValidEvent event) then
    (s, some ⟨"Invalid event format. Must include group_id, stream_name, and numeric value."⟩)
  else if cfg.maxQueueSize ≤ s.eventQueue.length then
    (s, some ⟨"Event queue is full."⟩)
  else
    ({ s with eventQueue := s.eventQueue ++ [⟨event, now, 0⟩] }, none)

/-- The requeue loop from the catch block of `Chirpier.flushQueue`: events
whose retry counter has already reached `this.retries` are skipped
(dropped), every other event has its counter incremented and is kept, in
snapshot order. -/
def retryableEvents (retries : Nat) : List QueuedEvent → List QueuedEvent
  | [] => []
  | qe :: rest =>
    if retries ≤ qe.retryCount then retryableEvents retries rest
    else { qe with retryCount := qe.retryCount + 1 } :: retryableEvents retries rest

/-- One complete run of `Chirpier.flushQueue`, parameterised by the
environment of the awaited send: whether the POST succeeded, the wrappers
appended to the live queue by `monitor` calls that interleaved with the
send, and whether one of those interleaved calls scheduled a flush timer.
Returns the final queue, the final timer state, and the batch handed to
`sendEvents` (`none` when the snapshot was empty and the flush returned
early, leaving queue and timer untouched). On failure the surviving
snapshot events are re-queued ahead of the arrivals; `flushQueue` itself
never schedules a timer. -/
def flushQueue (cfg : Config) (queue : List QueuedEvent) (timerPending : Bool)
    (sendOk : Bool) (arrivals : List QueuedEvent) (arrivalsTimer : Bool) :
    List QueuedEvent × Bool × Option (List Event) :=
  if queue.isEmpty then
    (queue, timerPending, none)
  else
    let batch := queue.map (fun qe => qe.event)
    if sendOk then
      (arrivals, arrivalsTimer, some batch)
    else
      (retryableEvents cfg.retries queue ++ arrivals, arrivalsTimer, some batch)

/-- Interleaved small-step semantics of one client instance on the
JavaScript event loop: `monitor`'s enqueue section, `monitor`'s timer
scheduling, the start of a flush (snapshot swap-out plus timer clear),
and the two outcomes of the awaited send. Enqueues may interleave with an
in-flight send because the queue lock is released before `sendEvents` is
awaited. -/
inductive Step (cfg : Config) : ClientState → ClientState → Prop where
  | enqueue (s : ClientState) (e : Event) (t : Nat)
      (hv : isValidEvent e = true) (hlen : s.eventQueue.length < cfg.maxQueueSize) :
      Step cfg s { s with eventQueue := s.eventQueue ++ [⟨e, t, 0⟩] }
  | setTimer (s : ClientState) (h : s.flushTimerPending = false) :
      Step cfg s { s with flushTimerPending := true }
  | flushStart (s : ClientState) (hs : s.sending = none) (hq : s.eventQueue ≠ []) :
      Step cfg s { eventQueue := [], flushTimerPending := false, sending := some s.eventQueue }
  | sendOk (s : ClientState) (evs : List QueuedEvent) (h : s.sending = some evs) :
      Step cfg s { s with sending := none }
  | sendFail (s : ClientState) (evs : List QueuedEvent) (h : s.sending = some evs) :
      Step cfg s
        { s with
            eventQueue := retryableEvents cfg.retries evs ++ s.eventQueue,
            sending := none }

/-- The state of a freshly constructed client instance. -/
def initialState : ClientState := ⟨[], false, none⟩

/-- States reachable from a fresh client instance. -/
def Reachable (cfg : Config) (s : ClientState) : Prop :=
  Relation.ReflTransGen (Step cfg) initialState s

end Chirpier

/-- Value of one character of the standard base64 alphabet. -/
def b64Val (c : Char) : Option Nat :=
  if 'A' ≤ c && c ≤ 'Z' then some (c.toNat - 'A'.toNat)
  else if 'a' ≤ c && c ≤ 'z' then some (c.toNat - 'a'.toNat + 26)
  else if '0' ≤ c && c ≤ '9' then some (c.toNat - '0'.toNat + 52)
  else if c = '+' then some 62
  else if c = '/' then some 63
  else none

/-- Base64 sextet groups to bytes: each full group of four sextets yields
three bytes; a trailing group of three yields two, of two yields one, and
a lone trailing sextet yields nothing. -/
def sextetsToBytes : List Nat → List Nat
  | a :: b :: c :: d :: rest =>
    (a * 4 + b / 16) :: ((b % 16) * 16 + c / 4) :: ((c % 4) * 64 + d) :: sextetsToBytes rest
  | [a, b] => [a * 4 + b / 16]
  | [a, b, c] => [a * 4 + b / 16, (b % 16) * 16 + c / 4]
  | _ => []

/-- Continuation-byte test for UTF-8. -/
def isUtf8Cont (b : Nat) : Bool := 128 ≤ b && b < 192

/-- Lenient UTF-8 decoding of a byte list, modelling the decoding applied
by the external `js-base64` codec: a well-formed multi-byte sequence
becomes the corresponding character and any other byte falls through as a
Latin-1 character (the library never throws on malformed input). The fuel
bounds the recursion; callers pass the byte count plus one, which is
ample since every step consumes at least one byte. -/
def utf8Decode (fuel : Nat) (bs : List Nat) : List Char :=
  match fuel with
  | 0 => []
  | fuel + 1 =>
    match bs with
    | [] => []
    | b1 :: rest =>
      if b1 < 128 then Char.ofNat b1 :: utf8Decode fuel rest
      else if 194 ≤ b1 && b1 < 224 then
        match rest with
        | b2 :: rest2 =>
          if isUtf8Cont b2 then
            Char.ofNat ((b1 - 192) * 64 + (b2 - 128)) :: utf8Decode fuel rest2
          else Char.ofNat b1 :: utf8Decode fuel rest
        | [] => [Char.ofNat b1]
      else if 224 ≤ b1 && b1 < 240 then
        match rest with
        | b2 :: b3 :: rest2 =>
          if isUtf8Cont b2 && isUtf8Cont b3 then
            Char.ofNat ((b1 - 224) * 4096 + (b2 - 128) * 64 + (b3 - 128)) :: utf8Decode fuel rest2
          else Char.ofNat b1 :: utf8Decode fuel rest
        | _ => Char.ofNat b1 :: utf8Decode fuel rest
      else if 240 ≤ b1 && b1 < 245 then
        match rest with
        | b2 :: b3 :: b4 :: rest2 =>
          if isUtf8Cont b2 && isUtf8Cont b3 && isUtf8Cont b4 then
            Char.ofNat ((b1 - 240) * 262144 + (b2 - 128) * 4096 + (b3 - 128) * 64 + (b4 - 128))
              :: utf8Decode fuel rest2
          else Char.ofNat b1 :: utf8Decode fuel rest
        | _ => Char.ofNat b1 :: utf8Decode fuel rest
      else Char.ofNat b1 :: utf8Decode fuel rest

/-- Model of the external `Base64.decode` (the `js-base64` codec as it
behaves on a standard runtime): characters outside the base64 alphabet,
including the `=` padding, are ignored; the remaining sextets are grouped
into bytes; the bytes are decoded leniently as UTF-8. -/
def base64Decode (s : String) : String :=
  let bytes := sextetsToBytes (s.data.filterMap b64Val)
  String.mk (utf8Decode (bytes.length + 1) bytes)

/-- `base64UrlDecode` from the source: replace `-` with `+` and `_` with
`/`, right-pad with `=` to a multiple-of-4 length, and decode as base64. -/
def base64UrlDecode (str : String) : String :=
  let base64 := String.mk (str.data.map fun c =>
    if c = '-' then '+' else if c = '_' then '/' else c)
  let padding := base64.length % 4
  let padded :=
    if padding ≠ 0 then base64 ++ String.mk (List.replicate (4 - padding) '=') else base64
  base64Decode padded

/-- JSON whitespace accepted by `JSON.parse`. -/
def jsonWs (c : Char) : Bool := c = ' ' || c = '\t' || c = '\n' || c = '\r'

/-- Drop leading JSON whitespace. -/
def skipJsonWs (cs : List Char) : List Char := cs.dropWhile jsonWs

/-- Decimal digit test. -/
def isDigitChar (c : Char) : Bool := '0' ≤ c && c ≤ '9'

/-- Value of a decimal digit. -/
def digitVal (c : Char) : Nat := c.toNat - '0'.toNat

/-- Value of a decimal digit string. -/
def digitsToNat (ds : List Char) : Nat := ds.foldl (fun n c => n * 10 + digitVal c) 0

/-- Hexadecimal value of a character, for `u`-escapes in JSON strings. -/
def hexVal (c : Char) : Option Nat :=
  let n := c.toNat
  if 48 ≤ n && n ≤ 57 then some (n - 48)
  else if 97 ≤ n && n ≤ 102 then some (n - 87)
  else if 65 ≤ n && n ≤ 70 then some (n - 55)
  else none

/-- Parse the body of a JSON string after the opening quote, returning the
decoded characters and the input following the closing quote. Unescaped
control characters and malformed escapes fail, as in `JSON.parse`. The
fuel argument bounds the recursion; callers pass the input length plus
one, which is ample since every step consumes at least one character. -/
def parseJsonStringBody (fuel : Nat) (cs : List Char) : Option (List Char × List Char) :=
  match fuel with
  | 0 => none
  | fuel + 1 =>
    match cs with
    | [] => none
    | c :: rest =>
      if c = '"' then some ([], rest)
      else if c = '\\' then
        match rest with
        | [] => none
        | e :: rest2 =>
          let decoded : Option (Char × List Char) :=
            if e = '"' then some ('"', rest2)
            else if e = '\\' then some ('\\', rest2)
            else if e = '/' then some ('/', rest2)
            else if e = 'b' then some ('\x08', rest2)
            else if e = 'f' then some ('\x0c', rest2)
            else if e = 'n' then some ('\n', rest2)
            else if e = 'r' then some ('\r', rest2)
            else if e = 't' then some ('\t', rest2)
            else if e = 'u' then
              match rest2 with
              | h1 :: h2 :: h3 :: h4 :: rest3 =>
                match hexVal h1, hexVal h2, hexVal h3, hexVal h4 with
                | some v1, some v2, some v3, some v4 =>
                  some (Char.ofNat (((v1 * 16 + v2) * 16 + v3) * 16 + v4), rest3)
                | _, _, _, _ => none
              | _ => none
            else none
          match decoded with
          | none => none
          | some (d, after) =>
            match parseJsonStringBody fuel after with
            | some (body, rem) => some (d :: body, rem)
            | none => none
      else if c.toNat < 32 then none
      else
        match parseJsonStringBody fuel rest with
        | some (body, rem) => some (c :: body, rem)
        | none => none

/-- Numeric value of a parsed JSON number literal, as an exact rational
(the model does not round to binary floating point; no claim computes
with parsed numeric values). -/
def jsonNumVal (neg : Bool) (intDigits fracDigits : List Char) (expNeg : Bool) (e : Nat) : ℚ :=
  let mantissa : ℚ := (digitsToNat intDigits : ℚ) +
    (digitsToNat fracDigits : ℚ) / ((10 : ℚ) ^ fracDigits.length)
  let scaled : ℚ := if expNeg then mantissa / ((10 : ℚ) ^ e) else mantissa * ((10 : ℚ) ^ e)
  if neg then -scaled else scaled

/-- Parse a JSON number at the head of the input
(`-? (0 | [1-9][0-9]*) (. [0-9]+)? ([eE][+-]?[0-9]+)?`). -/
def parseJsonNumber (cs : List Char) : Option (ℚ × List Char) :=
  let signSplit : Bool × List Char :=
    match cs with
    | '-' :: t => (true, t)
    | _ => (false, cs)
  let neg := signSplit.1
  let cs1 := signSplit.2
  let intDigits := cs1.takeWhile isDigitChar
  let cs2 := cs1.drop intDigits.length
  if intDigits.isEmpty then none
  else if 1 < intDigits.length && intDigits.head? == some '0' then none
  else
    let hasFrac := cs2.head? == some '.'
    let fracDigits := if hasFrac then (cs2.drop 1).takeWhile isDigitChar else []
    let cs3 := if hasFrac then (cs2.drop 1).drop fracDigits.length else cs2
    if hasFrac && fracDigits.isEmpty then none
    else
      let hasExp := cs3.head? == some 'e' || cs3.head? == some 'E'
      if hasExp then
        let cs4 := cs3.drop 1
        let expSplit : Bool × List Char :=
          match cs4 with
          | '+' :: t => (false, t)
          | '-' :: t => (true, t)
          | _ => (false, cs4)
        let expDigits := expSplit.2.takeWhile isDigitChar
        let cs5 := expSplit.2.drop expDigits.length
        if expDigits.isEmpty then none
        else some (jsonNumVal neg intDigits fracDigits expSplit.1 (digitsToNat expDigits), cs5)
      else some (jsonNumVal neg intDigits fracDigits false 0, cs3)

mutual

/-- Parse one JSON value at the head of the input (leading whitespace
already consumed). The fuel bounds recursion depth; the top-level entry
point supplies twice the input length plus two, which dominates any
possible nesting. -/
def parseJsonValue (fuel : Nat) (cs : List Char) : Option (JsValue × List Char) :=
  match fuel with
  | 0 => none
  | fuel + 1 =>
    match cs with
    | [] => none
    | c :: rest =>
      if c = 'n' then
        match rest with
        | 'u' :: 'l' :: 'l' :: rest2 => some (.null, rest2)
        | _ => none
      else if c = 't' then
        match rest with
        | 'r' :: 'u' :: 'e' :: rest2 => some (.boolean true, rest2)
        | _ => none
      else if c = 'f' then
        match rest with
        | 'a' :: 'l' :: 's' :: 'e' :: rest2 => some (.boolean false, rest2)
        | _ => none
      else if c = '"' then
        match parseJsonStringBody (rest.length + 1) rest with
        | some (body, rest2) => some (.str (String.mk body), rest2)
        | none => none
      else if c = '[' then
        match skipJsonWs rest with
        | ']' :: rest2 => some (.arr [], rest2)
        | rest1 =>
          match parseJsonElems fuel rest1 with
          | some (elems, rest2) => some (.arr elems, rest2)
          | none => none
      else if c = '{' then
        match skipJsonWs rest with
        | '}' :: rest2 => some (.obj [], rest2)
        | rest1 =>
          match parseJsonMembers fuel rest1 with
          | some (fields, rest2) => some (.obj fields, rest2)
          | none => none
      else
        match parseJsonNumber cs with
        | some (q, rest2) => some (.num (.finite q), rest2)
        | none => none

/-- Parse a nonempty comma-separated list of array elements up to and
including the closing bracket. -/
def parseJsonElems (fuel : Nat) (cs : List Char) : Option (List JsValue × List Char) :=
  match fuel with
  | 0 => none
  | fuel + 1 =>
    match parseJsonValue fuel cs with
    | none => none
    | some (v, rest) =>
      match skipJsonWs rest with
      | ',' :: rest2 =>
        match parseJsonElems fuel (skipJsonWs rest2) with
        | some (vs, rest3) => some (v :: vs, rest3)
        | none => none
      | ']' :: rest2 => some ([v], rest2)
      | _ => none

/-- Parse a nonempty comma-separated list of object members up to and
including the closing brace. -/
def parseJsonMembers (fuel : Nat) (cs : List Char) :
    Option (List (String × JsValue) × List Char) :=
  match fuel with
  | 0 => none
  | fuel + 1 =>
    match cs with
    | '"' :: rest =>
      match parseJsonStringBody (rest.length + 1) rest with
      | none => none
      | some (key, rest1) =>
        match skipJsonWs rest1 with
        | ':' :: rest2 =>
          match parseJsonValue fuel (skipJsonWs rest2) with
          | none => none
          | some (v, rest3) =>
            match skipJsonWs rest3 with
            | ',' :: rest4 =>
              match parseJsonMembers fuel (skipJsonWs rest4) with
              | some (fs, rest5) => some ((String.mk key, v) :: fs, rest5)
              | none => none
            | '}' :: rest4 => some ([(String.mk key, v)], rest4)
            | _ => none
        | _ => none
    | _ => none

end

/-- Model of `JSON.parse`: one JSON document with optional surrounding
whitespace; `none` models a thrown `SyntaxError`. -/
def jsonParse (s : String) : Option JsValue :=
  match parseJsonValue (s.data.length * 2 + 2) (skipJsonWs s.data) with
  | some (v, rest) => if (skipJsonWs rest).isEmpty then some v else none
  | none => none

/-- A JSON object value in the strict sense: an object literal, excluding
arrays and null (both of which `typeof` nevertheless reports as
"object"). -/
def isJsonObjectValue : JsValue → Bool
  | .obj _ => true
  | _ => false

/-- `isValidJWT` from the source: split the token on `.`, require exactly
three segments, base64url-decode and JSON-parse the first two, and accept
exactly when both parses succeed with `typeof` result "object"; the
surrounding `try` turns any parse failure into `false`. -/
def isValidJWT (token : String) : Bool :=
  match jsSplit token '.' with
  | [h, p, _] =>
    match jsonParse (base64UrlDecode h), jsonParse (base64UrlDecode p) with
    | some hv, some pv => jsTypeof hv == "object" && jsTypeof pv == "object"
    | _, _ => false
  | _ => false

/-- The validation gate of the module-level `initialize`: the SDK error
"Invalid API key: Not a valid JWT" is raised exactly when `isValidJWT`
rejects `options.key`. A key that passes the JWT check is a nonempty
string, so the constructor's own key check cannot fire afterwards, and
`getInstance` raises nothing else. -/
def initializeResult (key : String) : Except ChirpierError Unit :=
  if isValidJWT key then .ok () else .error ⟨"Invalid API key: Not a valid JWT"⟩

/-- The module-level `monitor` wrapper: `Chirpier.getInstance` is called
with empty options, whose falsy `key` prevents any implicit construction,
so with no singleton present the not-initialized error is thrown; with an
instance present the wrapper delegates to the instance's `monitor`
without awaiting it, so a rejection of the enqueue step is caught and
logged ("Error in monitor function:") instead of propagating. The result
pairs the state after the call with the log lines emitted by the catch
handler. -/
def moduleMonitor (cfg : Config) (instanceState : Option Chirpier.ClientState)
    (event : Event) (now : Nat) :
    Except ChirpierError (Chirpier.ClientState × List String) :=
  match instanceState with
  | none => .error ⟨"Chirpier SDK is not initialized. Please call initialize() first."⟩
  | some s =>
    match Chirpier.monitorEnqueue cfg s event now with
    | (s1, some _) => .ok (s1, ["Error in monitor function:"])
    | (s1, none) => .ok (s1, [])

/-- Modelled from the spec: the initialization options of the configurable
evolution of the client. The repository contains the test suite for this
evolution (custom `apiEndpoint`, `retries`, `batchSize`, `flushInterval`
at initialization) but not its implementation; the sources' surviving
constructor accepts only `key` and `logLevel`. Per the spec, every
configuration field except the credential is optional. -/
structure InitOptions where
  key : String
  apiEndpoint : Option String
  retries : Option Nat
  timeout : Option Nat
  batchSize : Option Nat
  flushDelay : Option Nat
  maxQueueSize : Option Nat
  logLevel : Option LogLevel

/-- Modelled from the spec: configuration resolution of the configurable
evolution — each optional field either takes the supplied override or the
canonical default constant. -/
def resolveConfig (o : InitOptions) : Config :=
  { apiEndpoint := o.apiEndpoint.getD Constants.DEFAULT_API_ENDPOINT
    retries := o.retries.getD Constants.DEFAULT_RETRIES
    timeout := o.timeout.getD Constants.DEFAULT_TIMEOUT
    batchSize := o.batchSize.getD Constants.DEFAULT_BATCH_SIZE
    flushDelay := o.flushDelay.getD Constants.DEFAULT_FLUSH_DELAY
    maxQueueSize := o.maxQueueSize.getD Constants.MAX_QUEUE_SIZE
    logLevel := o.logLevel.getD LogLevel.none }

/-- Modelled from the spec: the canonical event record of the evolution
that carries an optional `event_id` (the sources' surviving `Event`
interface has no such field; the repository's test suite for that
evolution asserts the `event_id` behaviour). Field values are as accepted
by validation. -/
structure EventS where
  group_id : String
  stream_name : String
  value : JsNum
  event_id : Option String

/-- Modelled from the spec: a queued wrapper of the `event_id`-carrying
event model. -/
structure QueuedEventS where
  event : EventS
  timestamp : Nat
  retryCount : Nat

/-- Modelled from the spec: `event_id` assignment at enqueue time — an
event submitted without an `event_id` receives the value produced by the
external version-4 UUID generator (passed in as `gen`); an event
submitted with an explicit `event_id` is kept unchanged. -/
def assignEventId (gen : String) (e : EventS) : EventS :=
  match e.event_id with
  | none => { e with event_id := some gen }
  | some _ => e

/-- Modelled from the spec: the enqueue step of the `event_id`-carrying
evolution — wrap the (possibly id-assigned) event with the current
timestamp and retry count 0. -/
def enqueueS (gen : String) (e : EventS) (now : Nat) : QueuedEventS :=
  ⟨assignEventId gen e, now, 0⟩

/-- The requeue loop of the failed-send path, on the `event_id`-carrying
wrapper: identical bookkeeping to `Chirpier.retryableEvents`, touching
only the retry counter. -/
def retryableEventsS (retries : Nat) : List QueuedEventS → List QueuedEventS
  | [] => []
  | qe :: rest =>
    if retries ≤ qe.retryCount then retryableEventsS retries rest
    else { qe with retryCount := qe.retryCount + 1 } :: retryableEventsS retries rest

/-- The outbound batch of a flush of the `event_id`-carrying evolution:
the stored events exactly as wrapped, `qe.event` for each snapshot
entry. -/
def sendBatchS (snapshot : List QueuedEventS) : List EventS :=
  snapshot.map (fun qe => qe.event)

/-- A concrete valid event (the UUID and stream name used throughout the
repository's test suite; the NaN value also witnesses that no finiteness
check is enforced). -/
def sampleEvent : Event :=
  ⟨.str "f3438ee9-b964-48aa-b938-a803df440a3c", .str "test-stream", .num .nan⟩

/-- The sample event wrapped as a fresh queue entry. -/
def sampleQueued : QueuedEvent := ⟨sampleEvent, 0, 0⟩

lemma sampleEvent_valid : Chirpier.isValidEvent sampleEvent = true := by decide

lemma retryableEvents_eq (r : Nat) (l : List QueuedEvent) :
    Chirpier.retryableEvents r l =
      (l.filter (fun qe => qe.retryCount < r)).map
        (fun qe => { qe with retryCount := qe.retryCount + 1 }) := by
  induction l with
  | nil => rfl
  | cons q rest ih =>
    by_cases h : r ≤ q.retryCount
    · simp [Chirpier.retryableEvents, List.filter_cons, h, Nat.not_lt.mpr h, ih]
    · simp [Chirpier.retryableEvents, List.filter_cons, h, Nat.not_le.mp h, ih]

lemma retryableEvents_le (r : Nat) (l : List QueuedEvent) :
    ∀ qe ∈ Chirpier.retryableEvents r l, qe.retryCount ≤ r := by
  induction l with
  | nil => simp [Chirpier.retryableEvents]
  | cons q rest ih =>
    by_cases h : r ≤ q.retryCount
    · simpa [Chirpier.retryableEvents, h] using ih
    · intro qe hmem
      simp only [Chirpier.retryableEvents, if_neg h, List.mem_cons] at hmem
      rcases hmem with rfl | hmem
      · show q.retryCount + 1 ≤ r
        have := Nat.not_le.mp h
        omega
      · exact ih qe hmem

lemma retryableEvents_events (r : Nat) (l : List QueuedEvent) :
    (Chirpier.retryableEvents r l).map (fun qe => qe.event) =
      (l.filter (fun qe => qe.retryCount < r)).map (fun qe => qe.event) := by
  simp [retryableEvents_eq, List.map_map]

lemma retryableEvents_replicate (r n : Nat) (qe : QueuedEvent) (h : qe.retryCount < r) :
    Chirpier.retryableEvents r (List.replicate n qe) =
      List.replicate n { qe with retryCount := qe.retryCount + 1 } := by
  induction n with
  | zero => rfl
  | succ n ih =>
    simp only [List.replicate_succ, Chirpier.retryableEvents, if_neg (Nat.not_le.mpr h)]
    rw [ih]

lemma reachable_retry_le (cfg : Config) (s : Chirpier.ClientState)
    (hs : Chirpier.Reachable cfg s) :
    ∀ qe ∈ s.eventQueue, qe.retryCount ≤ cfg.retries := by
  induction hs with
  | refl => intro qe h; simp [Chirpier.initialState] at h
  | tail hr hstep ih =>
    cases hstep with
    | enqueue e t hv hlen =>
      intro qe hmem
      rcases List.mem_append.mp hmem with hmem | hmem
      · exact ih qe hmem
      · rcases List.mem_singleton.mp hmem with rfl
        exact Nat.zero_le _
    | setTimer h => exact ih
    | flushStart hsend hq => intro qe h; simp at h
    | sendOk evs h => exact ih
    | sendFail evs h =>
      intro qe hmem
      rcases List.mem_append.mp hmem with hmem | hmem
      · exact retryableEvents_le _ _ qe hmem
      · exact ih qe hmem

lemma monitorEnqueue_error_frame (cfg : Config) (s : Chirpier.ClientState)
    (e : Event) (t : Nat) (err : ChirpierError)
    (h : (Chirpier.monitorEnqueue cfg s e t).2 = some err) :
    (Chirpier.monitorEnqueue cfg s e t).1 = s := by
  unfold Chirpier.monitorEnqueue at h ⊢
  split_ifs at h ⊢ <;> simp_all

lemma reach_replicate (cfg : Config) (n : Nat) (hn : n ≤ cfg.maxQueueSize) :
    Chirpier.Reachable cfg ⟨List.replicate n sampleQueued, false, none⟩ := by
  induction n with
  | zero => exact Relation.ReflTransGen.refl
  | succ n ih =>
    refine Relation.ReflTransGen.tail (ih (by omega)) ?_
    have hstep : Chirpier.Step cfg ⟨List.replicate n sampleQueued, false, none⟩
        ⟨List.replicate n sampleQueued ++ [⟨sampleEvent, 0, 0⟩], false, none⟩ :=
      Chirpier.Step.enqueue _ sampleEvent 0 sampleEvent_valid
        (by show (List.replicate n sampleQueued).length < cfg.maxQueueSize
            simp only [List.length_replicate]
            omega)
    simpa [List.replicate_succ', sampleQueued] using hstep

lemma retryableEventsS_events (r : Nat) (l : List QueuedEventS) :
    (retryableEventsS r l).map (fun qe => qe.event) =
      (l.filter (fun qe => qe.retryCount < r)).map (fun qe => qe.event) := by
  induction l with
  | nil => rfl
  | cons q rest ih =>
    by_cases h : r ≤ q.retryCount
    · simp [retryableEventsS, List.filter_cons, h, Nat.not_lt.mpr h, ih]
    · simp [retryableEventsS, List.filter_cons, h, Nat.not_le.mp h, ih]


lemma resolvedConfig_maxQueueSize (lv : LogLevel) : (resolvedConfig lv).maxQueueSize = 10000 :=
  rfl

lemma resolvedConfig_retries (lv : LogLevel) : (resolvedConfig lv).retries = 15 := rfl

/-- C1 (amended): for every client configuration, state and valid event,
if the event queue's length is at or above the maximum queue size when
`monitor` runs its enqueue step, the step raises the SDK error with
message "Event queue is full." and returns the state unchanged — the
event is not enqueued, nothing is partially inserted, and no existing
entry is evicted; conversely a successful enqueue step happens only when
the prior length is below the maximum and appends exactly one wrapper, so
an enqueue step never takes the queue above the configured maximum.
(Amendments forced by the counterexample: the message carries a trailing
period, and the bound is maintained by the enqueue path only — a failed
send's re-queueing can exceed the maximum.) -/
theorem c1_queue_full_rejects_without_enqueue (cfg : Config) (s : Chirpier.ClientState)
    (e : Event) (t : Nat) (hv : Chirpier.isValidEvent e = true) :
    (cfg.maxQueueSize ≤ s.eventQueue.length →
      Chirpier.monitorEnqueue cfg s e t = (s, some ⟨"Event queue is full."⟩)) ∧
    (∀ s1, Chirpier.monitorEnqueue cfg s e t = (s1, none) →
      s.eventQueue.length < cfg.maxQueueSize ∧
      s1.eventQueue = s.eventQueue ++ [⟨e, t, 0⟩] ∧
      s1.eventQueue.length ≤ cfg.maxQueueSize) := by
  constructor
  · intro hfull
    simp [Chirpier.monitorEnqueue, hv, hfull]
  · intro s1 hok
    unfold Chirpier.monitorEnqueue at hok
    split_ifs at hok with hval hfull
    · rw [hv] at hval
      simp at hval
    · simp at hok
    · have hlt := Nat.not_le.mp hfull
      injection hok with h1 h2
      subst h1
      refine ⟨hlt, rfl, ?_⟩
      simp only [List.length_append, List.length_cons, List.length_nil]
      omega

/-- C1 witness: at the default configuration, with the queue already
holding the maximum 10000 entries, the enqueue step of `monitor` on a
valid event returns the queue-full error and the unchanged state. -/
theorem c1_queue_full_rejects_without_enqueue_witness :
    Chirpier.monitorEnqueue (resolvedConfig .none)
        ⟨List.replicate 10000 sampleQueued, false, none⟩ sampleEvent 0 =
      (⟨List.replicate 10000 sampleQueued, false, none⟩, some ⟨"Event queue is full."⟩) :=
  (c1_queue_full_rejects_without_enqueue (resolvedConfig .none)
      ⟨List.replicate 10000 sampleQueued, false, none⟩ sampleEvent 0 sampleEvent_valid).1
    (by simp [List.length_replicate, resolvedConfig_maxQueueSize, -List.reduceReplicate])

/-- C1 counterexample: the claim as stated fails twice on the code. The
SDK error message is literally "Event queue is full." with a trailing
period, not "Event queue is full"; and the queue length bound is not an
invariant of the client — from a fresh default-configured client one can
reach (fill the queue to its maximum of 10000, start a flush, enqueue one
event while the send is in flight, have the send fail) a state whose
queue holds 10001 entries, because the failed flush re-queues the whole
snapshot ahead of the mid-send arrival without re-checking the cap. -/
theorem c1_queue_bound_counterexample :
    ((Chirpier.monitorEnqueue (resolvedConfig .none)
        ⟨List.replicate 10000 sampleQueued, false, none⟩ sampleEvent 0).2 =
          some ⟨"Event queue is full."⟩ ∧
      "Event queue is full." ≠ "Event queue is full") ∧
    (∃ s, Chirpier.Reachable (resolvedConfig .none) s ∧
      (resolvedConfig .none).maxQueueSize < s.eventQueue.length) := by
  refine ⟨⟨?_, by decide⟩, ?_⟩
  · simp [Chirpier.monitorEnqueue, sampleEvent_valid, resolvedConfig_maxQueueSize,
      -List.reduceReplicate]
  · refine ⟨⟨Chirpier.retryableEvents (resolvedConfig .none).retries
        (List.replicate 10000 sampleQueued) ++ [⟨sampleEvent, 0, 0⟩], false, none⟩, ?_, ?_⟩
    · have h1 : Chirpier.Reachable (resolvedConfig .none)
          ⟨List.replicate 10000 sampleQueued, false, none⟩ :=
        reach_replicate (resolvedConfig .none) 10000 le_rfl
      have h2 : Chirpier.Step (resolvedConfig .none)
          ⟨List.replicate 10000 sampleQueued, false, none⟩
          ⟨[], false, some (List.replicate 10000 sampleQueued)⟩ :=
        Chirpier.Step.flushStart _ rfl (by simp [-List.reduceReplicate])
      have h3 : Chirpier.Step (resolvedConfig .none)
          ⟨[], false, some (List.replicate 10000 sampleQueued)⟩
          ⟨[⟨sampleEvent, 0, 0⟩], false, some (List.replicate 10000 sampleQueued)⟩ := by
        have hstep : Chirpier.Step (resolvedConfig .none)
            ⟨[], false, some (List.replicate 10000 sampleQueued)⟩
            ⟨[] ++ [⟨sampleEvent, 0, 0⟩], false, some (List.replicate 10000 sampleQueued)⟩ :=
          Chirpier.Step.enqueue _ sampleEvent 0 sampleEvent_valid (by decide)
        simpa [-List.reduceReplicate] using hstep
      have h4 : Chirpier.Step (resolvedConfig .none)
          ⟨[⟨sampleEvent, 0, 0⟩], false, some (List.replicate 10000 sampleQueued)⟩
          ⟨Chirpier.retryableEvents (resolvedConfig .none).retries
              (List.replicate 10000 sampleQueued) ++ [⟨sampleEvent, 0, 0⟩], false, none⟩ :=
        Chirpier.Step.sendFail _ (List.replicate 10000 sampleQueued) rfl
      exact ((h1.tail h2).tail h3).tail h4
    · rw [retryableEvents_replicate _ _ _ (by decide)]
      simp [List.length_append, List.length_replicate, resolvedConfig_maxQueueSize,
        -List.reduceReplicate]

/-- C2: for every flush whose send attempt fails, each snapshot event
whose retry counter has already reached the configured maximum is dropped
and absent from the re-queued list, every other snapshot event has its
counter incremented by exactly one, and the survivors are re-inserted
into the live queue ahead of all events that arrived during the send
attempt, preserving their snapshot order. -/
theorem c2_failed_flush_requeue (cfg : Config) (queue : List QueuedEvent)
    (timer : Bool) (arrivals : List QueuedEvent) (arrivalsTimer : Bool)
    (hq : queue ≠ []) :
    (Chirpier.flushQueue cfg queue timer false arrivals arrivalsTimer).1 =
      Chirpier.retryableEvents cfg.retries queue ++ arrivals ∧
    Chirpier.retryableEvents cfg.retries queue =
      (queue.filter (fun qe => qe.retryCount < cfg.retries)).map
        (fun qe => { qe with retryCount := qe.retryCount + 1 }) := by
  constructor
  · cases queue with
    | nil => exact absurd rfl hq
    | cons q rest => rfl
  · exact retryableEvents_eq cfg.retries queue

/-- C2 witness: at the default configuration (maximum 15 retries), a
failed flush of a two-event snapshot whose first entry is at 15 retries
drops that entry, re-queues the second with its counter moved from 0 to
1, and places it ahead of the event that arrived during the send. -/
theorem c2_failed_flush_requeue_witness :
    (Chirpier.flushQueue (resolvedConfig .none)
        [⟨sampleEvent, 0, 15⟩, ⟨sampleEvent, 1, 0⟩] false false
        [⟨sampleEvent, 2, 0⟩] false).1 =
      [⟨sampleEvent, 1, 1⟩, ⟨sampleEvent, 2, 0⟩] := by
  rw [(c2_failed_flush_requeue (resolvedConfig .none)
      [⟨sampleEvent, 0, 15⟩, ⟨sampleEvent, 1, 0⟩] false [⟨sampleEvent, 2, 0⟩] false
      (by simp)).1]
  rfl

/-- C3: the event validator accepts an event if and only if `group_id` is
a string matching the canonical UUID pattern and non-empty after trim,
the stream-name field is a string non-empty after trim, and `value` is of
numeric type (the numeric model includes NaN and the infinities, and no
further check is applied to the number); and `monitor` never enqueues an
event the validator rejects — its enqueue step returns the invalid-format
error with the state unchanged. -/
theorem c3_validator_characterisation :
    (∀ e : Event, Chirpier.isValidEvent e = true ↔
      ((∃ g, e.group_id = JsValue.str g ∧ uuidTest g = true ∧ 0 < (jsTrim g).length) ∧
       (∃ sn, e.stream_name = JsValue.str sn ∧ 0 < (jsTrim sn).length) ∧
       (∃ n, e.value = JsValue.num n))) ∧
    (∀ cfg s (e : Event) (t : Nat), Chirpier.isValidEvent e = false →
      Chirpier.monitorEnqueue cfg s e t =
        (s, some ⟨"Invalid event format. Must include group_id, stream_name, and numeric value."⟩)) := by
  constructor
  · intro e
    obtain ⟨g, sn, v⟩ := e
    cases g <;> cases sn <;> cases v <;>
      simp [Chirpier.isValidEvent, Bool.and_eq_true, decide_eq_true_eq]
  · intro cfg s e t h
    simp [Chirpier.monitorEnqueue, h]

/-- C3 witness: the validator accepts a canonical-UUID group, nonempty
stream name and NaN value, and the enqueue step rejects an event whose
`group_id` is null, leaving the fresh state unchanged. -/
theorem c3_validator_characterisation_witness :
    Chirpier.isValidEvent sampleEvent = true ∧
    Chirpier.monitorEnqueue (resolvedConfig .none) Chirpier.initialState
        ⟨JsValue.null, JsValue.str "test-stream", JsValue.num JsNum.nan⟩ 0 =
      (Chirpier.initialState,
        some ⟨"Invalid event format. Must include group_id, stream_name, and numeric value."⟩) := by
  constructor
  · exact (c3_validator_characterisation.1 sampleEvent).mpr
      ⟨⟨"f3438ee9-b964-48aa-b938-a803df440a3c", rfl, by decide, by decide⟩,
       ⟨"test-stream", rfl, by decide⟩, ⟨JsNum.nan, rfl⟩⟩
  · exact c3_validator_characterisation.2 (resolvedConfig .none) Chirpier.initialState
      ⟨JsValue.null, JsValue.str "test-stream", JsValue.num JsNum.nan⟩ 0 (by decide)

/-- C4 (amended): for every string token, the credential validator
returns false unless splitting on `.` yields exactly 3 segments; it
base64url-decodes segments 1 and 2 (translating `-` to `+`, `_` to `/`,
right-padding with `=` to a multiple-of-4 length) and parses each as
JSON, succeeding if and only if both parses succeed with values of
JavaScript object type — object literals, arrays, or JSON null, since the
check is `typeof === "object"` — with any parse failure yielding false
rather than propagating; and `initialize` raises the SDK error "Invalid
API key: Not a valid JWT" if and only if this validation of the key
fails. (Amendment forced by the counterexample: "JSON object values" is
widened to "values of JavaScript object type", which also admits arrays
and null.) -/
theorem c4_jwt_validator_characterisation :
    (∀ token : String,
      isValidJWT token = true ↔
        ∃ hseg pseg sig, jsSplit token '.' = [hseg, pseg, sig] ∧
          ∃ hv pv, jsonParse (base64UrlDecode hseg) = some hv ∧
            jsonParse (base64UrlDecode pseg) = some pv ∧
            jsTypeof hv = "object" ∧ jsTypeof pv = "object") ∧
    (∀ key : String,
      initializeResult key = .error ⟨"Invalid API key: Not a valid JWT"⟩ ↔
        isValidJWT key = false) := by
  constructor
  · intro token
    constructor
    · intro htrue
      unfold isValidJWT at htrue
      rcases hsplit : jsSplit token '.' with _ | ⟨a, _ | ⟨b, _ | ⟨c, _ | ⟨d, t⟩⟩⟩⟩ <;>
        rw [hsplit] at htrue
      · simp at htrue
      · simp at htrue
      · simp at htrue
      · have htrue2 : (match jsonParse (base64UrlDecode a), jsonParse (base64UrlDecode b) with
            | some hv, some pv => jsTypeof hv == "object" && jsTypeof pv == "object"
            | _, _ => false) = true := htrue
        rcases hjh : jsonParse (base64UrlDecode a) with _ | hv
        · rw [hjh] at htrue2
          simp at htrue2
        · rcases hjp : jsonParse (base64UrlDecode b) with _ | pv
          · rw [hjh, hjp] at htrue2
            simp at htrue2
          · rw [hjh, hjp] at htrue2
            simp at htrue2
            exact ⟨a, b, c, rfl, hv, pv, hjh, hjp, htrue2.1, htrue2.2⟩
      · simp at htrue
    · rintro ⟨hseg, pseg, sig, hsplit, hv, pv, hhv, hpv, th, tp⟩
      simp [isValidJWT, hsplit, hhv, hpv, th, tp]
  · intro key
    unfold initializeResult
    by_cases hk : isValidJWT key <;> simp [hk]

/-- C4 witness: a token whose first two segments decode to the JSON
object literal (the three-segment token "e30.e30.x", each payload segment
decoding to the empty object) validates, and the non-JWT key "api_key"
makes `initialize` raise the credential error. -/
theorem c4_jwt_validator_characterisation_witness :
    isValidJWT "e30.e30.x" = true ∧
    initializeResult "api_key" = .error ⟨"Invalid API key: Not a valid JWT"⟩ := by
  constructor
  · exact (c4_jwt_validator_characterisation.1 "e30.e30.x").mpr
      ⟨"e30", "e30", "x", by rfl, .obj [], .obj [], by rfl, by rfl, rfl, rfl⟩
  · exact (c4_jwt_validator_characterisation.2 "api_key").mpr (by decide)

/-- C4 counterexample: the claim as stated requires both segments to
decode to JSON object values, but the code's `typeof` check also accepts
JSON null (and arrays): the token "bnVsbA.bnVsbA.x", whose first two
segments each decode to the JSON document `null` — not an object value —
is accepted by the validator. -/
theorem c4_jwt_object_counterexample :
    isValidJWT "bnVsbA.bnVsbA.x" = true ∧
    jsonParse (base64UrlDecode "bnVsbA") = some JsValue.null ∧
    isJsonObjectValue JsValue.null = false :=
  ⟨by decide, by rfl, by rfl⟩

/-- C5: calling the module-level `monitor` with no singleton instance
raises the SDK error with the exact literal message "Chirpier SDK is not
initialized. Please call initialize() first." regardless of the event;
with an instance present it delegates to the instance's `monitor` without
awaiting it — a rejection of the delegated call is caught and logged
("Error in monitor function:") and the wrapper still returns
successfully, while a successful delegation returns the updated state
with nothing logged. -/
theorem c5_module_monitor :
    (∀ cfg (e : Event) (t : Nat),
      moduleMonitor cfg none e t =
        .error ⟨"Chirpier SDK is not initialized. Please call initialize() first."⟩) ∧
    (∀ cfg s (e : Event) (t : Nat),
      (∀ err, (Chirpier.monitorEnqueue cfg s e t).2 = some err →
        moduleMonitor cfg (some s) e t = .ok (s, ["Error in monitor function:"])) ∧
      ((Chirpier.monitorEnqueue cfg s e t).2 = none →
        moduleMonitor cfg (some s) e t =
          .ok ((Chirpier.monitorEnqueue cfg s e t).1, []))) := by
  refine ⟨fun cfg e t => rfl, fun cfg s e t => ⟨?_, ?_⟩⟩
  · intro err herr
    have hframe := monitorEnqueue_error_frame cfg s e t err herr
    rcases hres : Chirpier.monitorEnqueue cfg s e t with ⟨s1, e1⟩
    rw [hres] at herr hframe
    simp at herr hframe
    subst hframe
    subst herr
    simp [moduleMonitor, hres]
  · intro hnone
    rcases hres : Chirpier.monitorEnqueue cfg s e t with ⟨s1, e1⟩
    rw [hres] at hnone
    simp at hnone
    subst hnone
    simp [moduleMonitor, hres]

/-- C5 witness: with no instance, the wrapper raises the not-initialized
error on the sample event; with a fresh instance, an invalid event's
rejection is swallowed and logged. -/
theorem c5_module_monitor_witness :
    moduleMonitor (resolvedConfig .none) none sampleEvent 0 =
      .error ⟨"Chirpier SDK is not initialized. Please call initialize() first."⟩ ∧
    moduleMonitor (resolvedConfig .none) (some Chirpier.initialState)
        ⟨JsValue.null, JsValue.null, JsValue.null⟩ 0 =
      .ok (Chirpier.initialState, ["Error in monitor function:"]) := by
  constructor
  · exact c5_module_monitor.1 (resolvedConfig .none) sampleEvent 0
  · exact (c5_module_monitor.2 (resolvedConfig .none) Chirpier.initialState
        ⟨JsValue.null, JsValue.null, JsValue.null⟩ 0).1
      ⟨"Invalid event format. Must include group_id, stream_name, and numeric value."⟩
      (by decide)

/-- C6 (amended): `flushQueue` never schedules a flush itself. For every
flush that takes a non-empty snapshot — on the success path and on the
retry path alike — the pending-flush timer after the flush equals exactly
whatever interleaved `monitor` calls scheduled during the send; in
particular, when nothing was scheduled mid-send the timer is left clear
even though the live queue may be non-empty after re-queueing, and the
next flush is triggered or scheduled only by a later `monitor` call (or
by `stop`). An empty-snapshot flush returns early leaving queue and timer
untouched. -/
theorem c6_flush_never_schedules (cfg : Config) (queue : List QueuedEvent)
    (timerPending : Bool) (sendOk : Bool) (arrivals : List QueuedEvent)
    (arrivalsTimer : Bool) (hq : queue ≠ []) :
    (Chirpier.flushQueue cfg queue timerPending sendOk arrivals arrivalsTimer).2.1 =
      arrivalsTimer ∧
    Chirpier.flushQueue cfg [] timerPending sendOk arrivals arrivalsTimer =
      ([], timerPending, none) := by
  constructor
  · cases queue with
    | nil => exact absurd rfl hq
    | cons q rest => cases sendOk <;> rfl
  · rfl

/-- C6 witness: after a failed send of a one-event snapshot with one
mid-send arrival and nothing scheduled during the send, the timer is
clear. -/
theorem c6_flush_never_schedules_witness :
    (Chirpier.flushQueue (resolvedConfig .none) [⟨sampleEvent, 0, 0⟩] true false
        [⟨sampleEvent, 1, 0⟩] false).2.1 = false :=
  (c6_flush_never_schedules (resolvedConfig .none) [⟨sampleEvent, 0, 0⟩] true false
      [⟨sampleEvent, 1, 0⟩] false (by simp)).1

/-- C6 counterexample: the claim says a flush that completes re-queueing
with a non-empty live queue and no flush scheduled schedules another
flush after the flush delay; in the code it does not. A failed flush of a
one-event snapshot re-queues it (live queue non-empty, length 2 with the
mid-send arrival) yet leaves no flush timer pending and no flush running. -/
theorem c6_no_reschedule_counterexample :
    (Chirpier.flushQueue (resolvedConfig .none) [⟨sampleEvent, 0, 0⟩] false false
        [⟨sampleEvent, 1, 0⟩] false).1.length = 2 ∧
    (Chirpier.flushQueue (resolvedConfig .none) [⟨sampleEvent, 0, 0⟩] false false
        [⟨sampleEvent, 1, 0⟩] false).2.1 = false :=
  ⟨rfl, rfl⟩

/-- C7 (amended): in every reachable state of a client instance, no
queued event's retry counter exceeds the configured maximum retries; and
an event whose counter has reached the maximum is not re-queued by the
next failed flush — it is dropped there (rather than being removed at the
moment the counter reaches the maximum: the re-queue that raises a
counter to the maximum leaves the event in the queue for one more send
attempt). -/
theorem c7_retry_counter_invariant (cfg : Config) (s : Chirpier.ClientState)
    (hs : Chirpier.Reachable cfg s) :
    (∀ qe ∈ s.eventQueue, qe.retryCount ≤ cfg.retries) ∧
    (∀ snapshot : List QueuedEvent,
      Chirpier.retryableEvents cfg.retries snapshot =
        (snapshot.filter (fun qe => qe.retryCount < cfg.retries)).map
          (fun qe => { qe with retryCount := qe.retryCount + 1 })) :=
  ⟨reachable_retry_le cfg s hs, fun snapshot => retryableEvents_eq cfg.retries snapshot⟩

/-- C7 witness: the invariant instantiated at a state reached by a single
enqueue from a fresh default-configured client. -/
theorem c7_retry_counter_invariant_witness :
    (⟨sampleEvent, 0, 0⟩ : QueuedEvent).retryCount ≤ (resolvedConfig .none).retries := by
  have hstep0 : Chirpier.Step (resolvedConfig .none) Chirpier.initialState
      { Chirpier.initialState with
          eventQueue := Chirpier.initialState.eventQueue ++ [⟨sampleEvent, 0, 0⟩] } :=
    Chirpier.Step.enqueue Chirpier.initialState sampleEvent 0 sampleEvent_valid (by decide)
  have hstep : Chirpier.Step (resolvedConfig .none) Chirpier.initialState
      ⟨[⟨sampleEvent, 0, 0⟩], false, none⟩ := by
    simpa [Chirpier.initialState] using hstep0
  exact (c7_retry_counter_invariant (resolvedConfig .none)
    ⟨[⟨sampleEvent, 0, 0⟩], false, none⟩ (Relation.ReflTransGen.single hstep)).1
    ⟨sampleEvent, 0, 0⟩ (by simp)

/-- C7 counterexample: an event whose retry counter reaches the
configured maximum (15) is not removed from the queue at that point — a
failed flush of a snapshot holding an event at 14 retries re-queues it
with its counter at the maximum, so the post-flush live queue still
contains it. -/
theorem c7_reach_max_not_removed_counterexample :
    (resolvedConfig .none).retries = 15 ∧
    (Chirpier.flushQueue (resolvedConfig .none) [⟨sampleEvent, 0, 14⟩] false false
        [] false).1 = [⟨sampleEvent, 0, 15⟩] :=
  ⟨rfl, rfl⟩

/-- C8: resolving a configuration in which every optional setting is
omitted yields exactly the canonical defaults — retries 15, timeout 5000
milliseconds, batch size 250, flush delay 500 milliseconds, maximum queue
size 10000 (with the default endpoint and logging disabled) — and every
configuration field except the credential takes any value supplied at
initialization. -/
theorem c8_config_defaults_and_overrides :
    (∀ k, resolveConfig ⟨k, none, none, none, none, none, none, none⟩ =
      ⟨"https://events.chirpier.co/v1.0/events", 15, 5000, 250, 500, 10000, LogLevel.none⟩) ∧
    (∀ k v, (resolveConfig ⟨k, some v, none, none, none, none, none, none⟩).apiEndpoint = v) ∧
    (∀ k v, (resolveConfig ⟨k, none, some v, none, none, none, none, none⟩).retries = v) ∧
    (∀ k v, (resolveConfig ⟨k, none, none, some v, none, none, none, none⟩).timeout = v) ∧
    (∀ k v, (resolveConfig ⟨k, none, none, none, some v, none, none, none⟩).batchSize = v) ∧
    (∀ k v, (resolveConfig ⟨k, none, none, none, none, some v, none, none⟩).flushDelay = v) ∧
    (∀ k v, (resolveConfig ⟨k, none, none, none, none, none, some v, none⟩).maxQueueSize = v) ∧
    (∀ k v, (resolveConfig ⟨k, none, none, none, none, none, none, some v⟩).logLevel = v) :=
  ⟨fun _ => rfl, fun _ _ => rfl, fun _ _ => rfl, fun _ _ => rfl, fun _ _ => rfl,
    fun _ _ => rfl, fun _ _ => rfl, fun _ _ => rfl⟩

/-- C9: an event submitted without an `event_id` is assigned the
generator's UUID at enqueue time and that exact value appears on the
event in the outbound batch; an event submitted with an explicit
`event_id` is preserved unchanged in the outbound batch; and the retry
re-queue bookkeeping never touches the stored event, so an assigned id is
never regenerated afterwards. -/
theorem c9_event_id_assignment :
    (∀ gen (e : EventS) (t : Nat), e.event_id = none →
      (enqueueS gen e t).event = { e with event_id := some gen } ∧
      sendBatchS [enqueueS gen e t] = [{ e with event_id := some gen }]) ∧
    (∀ gen (e : EventS) (t : Nat) i, e.event_id = some i →
      (enqueueS gen e t).event = e ∧ sendBatchS [enqueueS gen e t] = [e]) ∧
    (∀ r (l : List QueuedEventS),
      (retryableEventsS r l).map (fun qe => qe.event) =
        (l.filter (fun qe => qe.retryCount < r)).map (fun qe => qe.event)) := by
  refine ⟨?_, ?_, retryableEventsS_events⟩
  · intro gen e t h
    constructor
    · simp [enqueueS, assignEventId, h]
    · simp [sendBatchS, enqueueS, assignEventId, h]
  · intro gen e t i h
    constructor
    · simp [enqueueS, assignEventId, h]
    · simp [sendBatchS, enqueueS, assignEventId, h]

/-- C9 witness: an event without an id gets the generated value; an event
with an explicit id keeps it verbatim. -/
theorem c9_event_id_assignment_witness :
    (enqueueS "generated-uuid"
        ⟨"f3438ee9-b964-48aa-b938-a803df440a3c", "test-stream", JsNum.nan, none⟩ 0).event =
      ⟨"f3438ee9-b964-48aa-b938-a803df440a3c", "test-stream", JsNum.nan,
        some "generated-uuid"⟩ ∧
    (enqueueS "generated-uuid"
        ⟨"f3438ee9-b964-48aa-b938-a803df440a3c", "test-stream", JsNum.nan,
          some "f3438ee9-b964-48aa-b938-a803df440a3c"⟩ 0).event =
      ⟨"f3438ee9-b964-48aa-b938-a803df440a3c", "test-stream", JsNum.nan,
        some "f3438ee9-b964-48aa-b938-a803df440a3c"⟩ :=
  ⟨(c9_event_id_assignment.1 "generated-uuid"
      ⟨"f3438ee9-b964-48aa-b938-a803df440a3c", "test-stream", JsNum.nan, none⟩ 0 rfl).1,
   (c9_event_id_assignment.2.1 "generated-uuid"
      ⟨"f3438ee9-b964-48aa-b938-a803df440a3c", "test-stream", JsNum.nan,
        some "f3438ee9-b964-48aa-b938-a803df440a3c"⟩ 0
      "f3438ee9-b964-48aa-b938-a803df440a3c" rfl).1⟩

/-- C10: neither enqueueing nor flushing mutates a submitted event's
fields — a successful enqueue step appends a wrapper holding exactly the
submitted event with retry count 0, the outbound batch of a flush is
exactly the stored events of the snapshot, and the failed-send re-queue
rewrites only the wrappers' retry counters, never the events inside. -/
theorem c10_event_fields_frame (cfg : Config) (s : Chirpier.ClientState) (e : Event)
    (t : Nat) :
    ((Chirpier.monitorEnqueue cfg s e t).2 = none →
      (Chirpier.monitorEnqueue cfg s e t).1.eventQueue = s.eventQueue ++ [⟨e, t, 0⟩]) ∧
    (∀ queue timerPending sendOk arrivals arrivalsTimer,
      queue ≠ [] →
      (Chirpier.flushQueue cfg queue timerPending sendOk arrivals arrivalsTimer).2.2 =
        some (queue.map (fun qe => qe.event))) ∧
    (∀ r (snapshot : List QueuedEvent),
      (Chirpier.retryableEvents r snapshot).map (fun qe => qe.event) =
        (snapshot.filter (fun qe => qe.retryCount < r)).map (fun qe => qe.event)) := by
  refine ⟨?_, ?_, retryableEvents_events⟩
  · intro hok
    unfold Chirpier.monitorEnqueue at hok ⊢
    split_ifs at hok ⊢
    all_goals simp_all
  · intro queue timerPending sendOk arrivals arrivalsTimer hq
    cases queue with
    | nil => exact absurd rfl hq
    | cons q rest => cases sendOk <;> rfl

/-- C10 witness: enqueueing the sample event into a fresh client stores
it verbatim, and flushing that queue hands exactly it to `sendEvents`. -/
theorem c10_event_fields_frame_witness :
    (Chirpier.monitorEnqueue (resolvedConfig .none) Chirpier.initialState sampleEvent
        0).1.eventQueue = [⟨sampleEvent, 0, 0⟩] ∧
    (Chirpier.flushQueue (resolvedConfig .none) [⟨sampleEvent, 0, 0⟩] false true [] false).2.2 =
      some [sampleEvent] := by
  constructor
  · have h := (c10_event_fields_frame (resolvedConfig .none) Chirpier.initialState
      sampleEvent 0).1 (by decide)
    simpa [Chirpier.initialState] using h
  · have h := (c10_event_fields_frame (resolvedConfig .none) Chirpier.initialState
      sampleEvent 0).2.1 [⟨sampleEvent, 0, 0⟩] false true [] false (by simp)
    simpa using h
